import Mathlib

/-!
# doom.cpp: an SDL2 HUD demo, as a trace semantics

`src/doom.cpp` consists of two functions, `renderHUD` and `main`.  Both only
talk to the SDL2 and SDL2_ttf libraries, so the program is embedded as a
function from the *outcomes of its library calls* to the exit status and the
*trace* of actions it performs, in program order.

* The outcome of each of the five initialisation calls is a `Bool`
  (`true` = the call succeeded: return value `0` for `SDL_Init`, a value other
  than `-1` for `TTF_Init`, a non-null pointer for the three others).
* The events delivered by `SDL_PollEvent` are given as one finite batch per
  iteration of the outer loop: the events returned before the call that
  returns `0`.
* `TTF_RenderText_Solid` returns, in iteration `i`, either a null pointer or a
  surface with its `w` and `h`; `SDL_CreateTextureFromSurface` succeeds or not.
* The outer `while (running)` loop need not terminate; it is run with fuel, one
  unit per evaluation of the loop condition.
-/

namespace Doom

/-! ## Data of the SDL interface that the program touches -/

/-- The `SDL_Color` struct: `r, g, b, a`. -/
structure SDL_Color where
  r : Nat
  g : Nat
  b : Nat
  a : Nat
deriving DecidableEq

/-- The `SDL_Rect` struct: `x, y, w, h` (C `int`s). -/
structure SDL_Rect where
  x : Int
  y : Int
  w : Int
  h : Int
deriving DecidableEq

/-- The fields of an `SDL_Surface` the program reads: `w` and `h`. -/
structure SDL_Surface where
  w : Int
  h : Int
deriving DecidableEq

/-- The field of the `SDL_Event` union the program reads: `type`. -/
structure SDL_Event where
  type : Nat
deriving DecidableEq

/-- Value of `SDL_QUIT` in SDL2 (`SDL_events.h`). -/
def SDL_QUIT : Nat := 0x100

/-- Value of `SDL_INIT_VIDEO` in SDL2 (`SDL.h`). -/
def SDL_INIT_VIDEO : Nat := 0x20

/-- Value of `SDL_WINDOWPOS_CENTERED` in SDL2 (`SDL_video.h`). -/
def SDL_WINDOWPOS_CENTERED : Nat := 0x2FFF0000

/-- Value of `SDL_WINDOW_SHOWN` in SDL2 (`SDL_video.h`). -/
def SDL_WINDOW_SHOWN : Nat := 0x4

/-- Value of `SDL_RENDERER_ACCELERATED` in SDL2 (`SDL_render.h`). -/
def SDL_RENDERER_ACCELERATED : Nat := 0x2

/-- Value of `SDL_RENDERER_PRESENTVSYNC` in SDL2 (`SDL_render.h`). -/
def SDL_RENDERER_PRESENTVSYNC : Nat := 0x4

/-- Which library's error string a diagnostic line appends. -/
inductive ErrorSource where
  | SDL_GetError
  | TTF_GetError
deriving DecidableEq

/-- One observable action of the program.  Library calls carry the arguments
the source passes and, where the program branches on it, the result.  At most
one window, renderer, font, surface and texture exist at any time, so handles
are not named.  `cerr` is one `std::cerr << prefix << XXX_GetError() << endl`
statement; `surfaceW`/`surfaceH` are the reads `surfaceMessage->w` and
`surfaceMessage->h`. -/
inductive Action where
  | SDL_Init (flags : Nat) (ok : Bool)
  | TTF_Init (ok : Bool)
  | SDL_CreateWindow (title : String) (x y w h flags : Nat) (ok : Bool)
  | SDL_CreateRenderer (index : Int) (flags : Nat) (ok : Bool)
  | TTF_OpenFont (file : String) (ptsize : Nat) (ok : Bool)
  | cerr (pfx : String) (err : ErrorSource)
  | SDL_Quit
  | TTF_Quit
  | SDL_DestroyWindow
  | SDL_DestroyRenderer
  | TTF_CloseFont
  | SDL_PollEvent (event : Option SDL_Event)
  | SDL_SetRenderDrawColor (r g b a : Nat)
  | SDL_RenderClear
  | SDL_RenderPresent
  | TTF_RenderText_Solid (text : String) (fg : SDL_Color) (result : Option SDL_Surface)
  | SDL_CreateTextureFromSurface (ok : Bool)
  | surfaceW
  | surfaceH
  | SDL_RenderCopy (srcrect : Option SDL_Rect) (dstrect : SDL_Rect)
  | SDL_FreeSurface
  | SDL_DestroyTexture
deriving DecidableEq

/-- The actions of a run, in program order. -/
abbrev Trace := List Action

/-! ## The program -/

/-- `renderHUD` (doom.cpp lines 6-37).  `rasterized` is what
`TTF_RenderText_Solid` returns (`none` = null pointer), `textureOk` whether
`SDL_CreateTextureFromSurface` returns a non-null texture. -/
def renderHUD (rasterized : Option SDL_Surface) (textureOk : Bool) : Trace :=
  let textColor : SDL_Color := ⟨255, 255, 255, 255⟩
  let t1 : Trace := [.TTF_RenderText_Solid "Health: 100" textColor rasterized]
  match rasterized with
  | none =>
    t1 ++ [.cerr "TTF_RenderText_Solid Error: " .TTF_GetError]
  | some surfaceMessage =>
    let t2 : Trace := t1 ++ [.SDL_CreateTextureFromSurface textureOk]
    if !textureOk then
      t2 ++ [.cerr "SDL_CreateTextureFromSurface Error: " .SDL_GetError,
             .SDL_FreeSurface]
    else
      let messageRect : SDL_Rect := ⟨10, 10, surfaceMessage.w, surfaceMessage.h⟩
      t2 ++ [.surfaceW, .surfaceH,
             .SDL_RenderCopy none messageRect,
             .SDL_FreeSurface,
             .SDL_DestroyTexture]

/-- The outcomes of the five initialisation calls of `main`. -/
structure InitOutcomes where
  sdlInit : Bool
  ttfInit : Bool
  createWindow : Bool
  createRenderer : Bool
  openFont : Bool
deriving DecidableEq

/-- Everything the libraries decide during one run. -/
structure Inputs where
  init : InitOutcomes
  events : Nat → List SDL_Event
  rasterize : Nat → Option SDL_Surface
  createTexture : Nat → Bool

/-- The inner loop `while (SDL_PollEvent(&event)) { ... }` (lines 97-103) on
the batch of pending events: the new value of `running` and the calls made. -/
def pollEvents : List SDL_Event → Bool → Bool × Trace
  | [], running => (running, [.SDL_PollEvent none])
  | event :: pending, running =>
    let running1 := if event.type = SDL_QUIT then false else running
    let r := pollEvents pending running1
    (r.1, .SDL_PollEvent (some event) :: r.2)

/-- The loop `while (running) { ... }` (lines 95-114), entered for iteration
number `i` with the given value of `running`.  `none` = out of fuel. -/
def mainLoop (inp : Inputs) : Nat → Nat → Bool → Option Trace
  | 0, _, _ => none
  | fuel + 1, i, running =>
    if running then
      let polled := pollEvents (inp.events i) running
      let body : Trace :=
        polled.2
          ++ [.SDL_SetRenderDrawColor 0 0 0 255, .SDL_RenderClear]
          ++ renderHUD (inp.rasterize i) (inp.createTexture i)
          ++ [.SDL_RenderPresent]
      match mainLoop inp fuel (i + 1) polled.1 with
      | none => none
      | some rest => some (body ++ rest)
    else
      some []

/-- `main` (lines 39-126): the exit status and the trace, `none` when the main
loop is still running after `fuel` evaluations of its condition. -/
def main (inp : Inputs) (fuel : Nat) : Option (Int × Trace) :=
  let t1 : Trace := [.SDL_Init SDL_INIT_VIDEO inp.init.sdlInit]
  if !inp.init.sdlInit then
    some (1, t1 ++ [.cerr "SDL_Init Error: " .SDL_GetError])
  else
  let t2 : Trace := t1 ++ [.TTF_Init inp.init.ttfInit]
  if !inp.init.ttfInit then
    some (1, t2 ++ [.cerr "TTF_Init Error: " .TTF_GetError, .SDL_Quit])
  else
  let t3 : Trace := t2 ++ [.SDL_CreateWindow "SDL2 HUD Example"
    SDL_WINDOWPOS_CENTERED SDL_WINDOWPOS_CENTERED 800 600 SDL_WINDOW_SHOWN
    inp.init.createWindow]
  if !inp.init.createWindow then
    some (1, t3 ++ [.cerr "SDL_CreateWindow Error: " .SDL_GetError,
                    .TTF_Quit, .SDL_Quit])
  else
  let t4 : Trace := t3 ++ [.SDL_CreateRenderer (-1)
    (SDL_RENDERER_ACCELERATED ||| SDL_RENDERER_PRESENTVSYNC)
    inp.init.createRenderer]
  if !inp.init.createRenderer then
    some (1, t4 ++ [.cerr "SDL_CreateRenderer Error: " .SDL_GetError,
                    .SDL_DestroyWindow, .TTF_Quit, .SDL_Quit])
  else
  let t5 : Trace := t4 ++ [.TTF_OpenFont "path/to/font.ttf" 24 inp.init.openFont]
  if !inp.init.openFont then
    some (1, t5 ++ [.cerr "TTF_OpenFont Error: " .TTF_GetError,
                    .SDL_DestroyRenderer, .SDL_DestroyWindow,
                    .TTF_Quit, .SDL_Quit])
  else
  match mainLoop inp fuel 0 true with
  | none => none
  | some frames =>
    some (0, t5 ++ frames ++ [.TTF_CloseFont, .SDL_DestroyRenderer,
                              .SDL_DestroyWindow, .TTF_Quit, .SDL_Quit])

/-! ## Vocabulary for stating properties of traces -/

/-- The five initialisation steps of `main`, in source order. -/
inductive InitStep where
  | SDL_Init
  | TTF_Init
  | SDL_CreateWindow
  | SDL_CreateRenderer
  | TTF_OpenFont
deriving DecidableEq

/-- The kinds of resource the program acquires and releases. -/
inductive Resource where
  | sdl
  | ttf
  | window
  | renderer
  | font
  | surface
  | texture
deriving DecidableEq

/-- Position of an initialisation step in the source, from 1. -/
def InitStep.index : InitStep → Nat
  | .SDL_Init => 1
  | .TTF_Init => 2
  | .SDL_CreateWindow => 3
  | .SDL_CreateRenderer => 4
  | .TTF_OpenFont => 5

/-- All initialisation steps in source order. -/
def InitStep.all : List InitStep :=
  [.SDL_Init, .TTF_Init, .SDL_CreateWindow, .SDL_CreateRenderer, .TTF_OpenFont]

/-- The resource a successful initialisation step acquires. -/
def InitStep.resource : InitStep → Resource
  | .SDL_Init => .sdl
  | .TTF_Init => .ttf
  | .SDL_CreateWindow => .window
  | .SDL_CreateRenderer => .renderer
  | .TTF_OpenFont => .font

/-- The outcome of a given initialisation step. -/
def InitOutcomes.outcome (o : InitOutcomes) : InitStep → Bool
  | .SDL_Init => o.sdlInit
  | .TTF_Init => o.ttfInit
  | .SDL_CreateWindow => o.createWindow
  | .SDL_CreateRenderer => o.createRenderer
  | .TTF_OpenFont => o.openFont

/-- The initialisation step an action is an attempt of, if any. -/
def initAttempt : Action → Option InitStep
  | .SDL_Init _ _ => some .SDL_Init
  | .TTF_Init _ => some .TTF_Init
  | .SDL_CreateWindow _ _ _ _ _ _ _ => some .SDL_CreateWindow
  | .SDL_CreateRenderer _ _ _ => some .SDL_CreateRenderer
  | .TTF_OpenFont _ _ _ => some .TTF_OpenFont
  | _ => none

/-- The initialisation steps attempted in a trace, in order. -/
def initAttempts (t : Trace) : List InitStep := t.filterMap initAttempt

/-- The resource an action acquires: a call that creates one and succeeded. -/
def acquires : Action → Option Resource
  | .SDL_Init _ true => some .sdl
  | .TTF_Init true => some .ttf
  | .SDL_CreateWindow _ _ _ _ _ _ true => some .window
  | .SDL_CreateRenderer _ _ true => some .renderer
  | .TTF_OpenFont _ _ true => some .font
  | .TTF_RenderText_Solid _ _ (some _) => some .surface
  | .SDL_CreateTextureFromSurface true => some .texture
  | _ => none

/-- The resource an action releases. -/
def releases : Action → Option Resource
  | .SDL_Quit => some .sdl
  | .TTF_Quit => some .ttf
  | .SDL_DestroyWindow => some .window
  | .SDL_DestroyRenderer => some .renderer
  | .TTF_CloseFont => some .font
  | .SDL_FreeSurface => some .surface
  | .SDL_DestroyTexture => some .texture
  | _ => none

/-- The resources acquired in a trace, in order of acquisition. -/
def acquired (t : Trace) : List Resource := t.filterMap acquires

/-- The resources released in a trace, in order of release. -/
def released (t : Trace) : List Resource := t.filterMap releases

/-- The resources still live at the end of a trace: replaying it, an
acquisition adds the resource and a release removes one instance of it. -/
def liveAfter (live : List Resource) : Trace → List Resource
  | [] => live
  | a :: t =>
    match acquires a, releases a with
    | some r, _ => liveAfter (r :: live) t
    | none, some r => liveAfter (live.erase r) t
    | none, none => liveAfter live t

/-- The resources owned for the whole process lifetime. -/
def Resource.longLived : Resource → Bool
  | .surface => false
  | .texture => false
  | _ => true

/-- Actions that only the body of the main loop performs: polling, clearing,
the library calls and surface reads of `renderHUD`, and presenting. -/
def isLoopAction : Action → Bool
  | .SDL_PollEvent _ => true
  | .SDL_SetRenderDrawColor _ _ _ _ => true
  | .SDL_RenderClear => true
  | .SDL_RenderPresent => true
  | .TTF_RenderText_Solid _ _ _ => true
  | .SDL_CreateTextureFromSurface _ => true
  | .surfaceW => true
  | .surfaceH => true
  | .SDL_RenderCopy _ _ => true
  | .SDL_FreeSurface => true
  | .SDL_DestroyTexture => true
  | _ => false

/-- Whether an action is the present call that ends a frame. -/
def isPresent : Action → Bool
  | .SDL_RenderPresent => true
  | _ => false

/-- Whether an action is the clear call that starts a frame. -/
def isClear : Action → Bool
  | .SDL_RenderClear => true
  | _ => false

/-- Whether a batch of events contains one of type `SDL_QUIT`. -/
def hasQuit (batch : List SDL_Event) : Bool :=
  batch.any (fun e => e.type == SDL_QUIT)

/-- The polling calls that drain a batch: one call per event, then the call
that finds the queue empty. -/
def drain (batch : List SDL_Event) : Trace :=
  batch.map (fun e => Action.SDL_PollEvent (some e)) ++ [.SDL_PollEvent none]

/-- One full frame: clear, `renderHUD`, present. -/
def frame (rasterized : Option SDL_Surface) (textureOk : Bool) : Trace :=
  [.SDL_SetRenderDrawColor 0 0 0 255, .SDL_RenderClear]
    ++ renderHUD rasterized textureOk ++ [.SDL_RenderPresent]

/-- Iteration `i` of the main loop: drain that iteration's batch, then one
full frame with that iteration's library outcomes. -/
def iteration (inp : Inputs) (i : Nat) : Trace :=
  drain (inp.events i) ++ frame (inp.rasterize i) (inp.createTexture i)

/-- The five initialisation calls when all of them succeed. -/
def initOk : Trace :=
  [.SDL_Init SDL_INIT_VIDEO true,
   .TTF_Init true,
   .SDL_CreateWindow "SDL2 HUD Example" SDL_WINDOWPOS_CENTERED
     SDL_WINDOWPOS_CENTERED 800 600 SDL_WINDOW_SHOWN true,
   .SDL_CreateRenderer (-1)
     (SDL_RENDERER_ACCELERATED ||| SDL_RENDERER_PRESENTVSYNC) true,
   .TTF_OpenFont "path/to/font.ttf" 24 true]

/-- The five release calls of the normal shutdown (lines 117-123). -/
def shutdown : Trace :=
  [.TTF_CloseFont, .SDL_DestroyRenderer, .SDL_DestroyWindow, .TTF_Quit, .SDL_Quit]

/-- Every initialisation call succeeds. -/
def InitOutcomes.allOk (o : InitOutcomes) : Bool :=
  o.sdlInit && o.ttfInit && o.createWindow && o.createRenderer && o.openFont

/-- Actions that an iteration of the main loop can perform: the loop actions
and the diagnostic line of a failed `renderHUD`. -/
def isBodyAction : Action → Bool
  | .cerr _ _ => true
  | a => isLoopAction a

/-- The first batch with a quit event is batch `n`, counting from 1. -/
def FirstQuitAt (inp : Inputs) (n : Nat) : Prop :=
  0 < n ∧ (∀ j, j + 1 < n → hasQuit (inp.events j) = false) ∧
    hasQuit (inp.events (n - 1)) = true

/-- Whether an action uses the per-frame texture: the blit. -/
def usesTexture : Action → Bool
  | .SDL_RenderCopy _ _ => true
  | _ => false

/-- Whether an action reads the rasterised surface: the reads of its width
and height, and the texture creation that copies its pixels. -/
def usesSurface : Action → Bool
  | .surfaceW => true
  | .surfaceH => true
  | .SDL_CreateTextureFromSurface _ => true
  | _ => false

/-- Whether an action is the rasterise call. -/
def isRasterize : Action → Bool
  | .TTF_RenderText_Solid _ _ _ => true
  | _ => false

/-- Whether an action is the texture-creation call. -/
def isCreateTexture : Action → Bool
  | .SDL_CreateTextureFromSurface _ => true
  | _ => false

/-- The trace of a failed initialisation, by first failing step. -/
def failureTrace : InitStep → Trace
  | .SDL_Init =>
    [.SDL_Init SDL_INIT_VIDEO false, .cerr "SDL_Init Error: " .SDL_GetError]
  | .TTF_Init =>
    [.SDL_Init SDL_INIT_VIDEO true, .TTF_Init false,
     .cerr "TTF_Init Error: " .TTF_GetError, .SDL_Quit]
  | .SDL_CreateWindow =>
    [.SDL_Init SDL_INIT_VIDEO true, .TTF_Init true,
     .SDL_CreateWindow "SDL2 HUD Example" SDL_WINDOWPOS_CENTERED
       SDL_WINDOWPOS_CENTERED 800 600 SDL_WINDOW_SHOWN false,
     .cerr "SDL_CreateWindow Error: " .SDL_GetError, .TTF_Quit, .SDL_Quit]
  | .SDL_CreateRenderer =>
    [.SDL_Init SDL_INIT_VIDEO true, .TTF_Init true,
     .SDL_CreateWindow "SDL2 HUD Example" SDL_WINDOWPOS_CENTERED
       SDL_WINDOWPOS_CENTERED 800 600 SDL_WINDOW_SHOWN true,
     .SDL_CreateRenderer (-1)
       (SDL_RENDERER_ACCELERATED ||| SDL_RENDERER_PRESENTVSYNC) false,
     .cerr "SDL_CreateRenderer Error: " .SDL_GetError,
     .SDL_DestroyWindow, .TTF_Quit, .SDL_Quit]
  | .TTF_OpenFont =>
    [.SDL_Init SDL_INIT_VIDEO true, .TTF_Init true,
     .SDL_CreateWindow "SDL2 HUD Example" SDL_WINDOWPOS_CENTERED
       SDL_WINDOWPOS_CENTERED 800 600 SDL_WINDOW_SHOWN true,
     .SDL_CreateRenderer (-1)
       (SDL_RENDERER_ACCELERATED ||| SDL_RENDERER_PRESENTVSYNC) true,
     .TTF_OpenFont "path/to/font.ttf" 24 false,
     .cerr "TTF_OpenFont Error: " .TTF_GetError,
     .SDL_DestroyRenderer, .SDL_DestroyWindow, .TTF_Quit, .SDL_Quit]

/-- Sample inputs: the given initialisation outcomes; a mouse event in every
batch and a quit event, followed by a key event, in batch 3; rasterisation
fails in iteration 0, texture creation fails in iteration 1. -/
def sampleInputs (o : InitOutcomes) : Inputs :=
  ⟨o,
   fun i => if i = 2 then [⟨0x400⟩, ⟨SDL_QUIT⟩, ⟨0x300⟩] else [⟨0x400⟩],
   fun i => if i = 0 then none else some ⟨132, 28⟩,
   fun i => decide (i ≠ 1)⟩

/-- The inputs of a complete run: every initialisation step succeeds and the
quit event arrives in the third batch. -/
def okInputs : Inputs := sampleInputs ⟨true, true, true, true, true⟩

/-! ## Lemmas on the event loop -/

theorem pollEvents_fst (batch : List SDL_Event) (running : Bool) :
    (pollEvents batch running).1 = (running && !hasQuit batch) := by
  induction batch generalizing running with
  | nil => simp [pollEvents, hasQuit]
  | cons e rest ih =>
    simp only [pollEvents, ih, hasQuit, List.any_cons]
    by_cases h : e.type = SDL_QUIT
    · simp [h]
    · have hb : (e.type == SDL_QUIT) = false := by simpa using h
      simp [h, hb]

theorem pollEvents_snd (batch : List SDL_Event) (running : Bool) :
    (pollEvents batch running).2 = drain batch := by
  induction batch generalizing running with
  | nil => simp [pollEvents, drain]
  | cons e rest ih => simp [pollEvents, ih, drain]

theorem mainLoop_succ_true (inp : Inputs) (fuel i : Nat) :
    mainLoop inp (fuel + 1) i true =
      (mainLoop inp fuel (i + 1) (!hasQuit (inp.events i))).map
        (fun rest => iteration inp i ++ rest) := by
  simp only [mainLoop, pollEvents_fst, pollEvents_snd, if_true, Bool.true_and]
  cases mainLoop inp fuel (i + 1) (!hasQuit (inp.events i)) <;>
    simp [iteration, frame, List.append_assoc]

theorem mainLoop_succ_false (inp : Inputs) (fuel i : Nat) :
    mainLoop inp (fuel + 1) i false = some [] := by
  simp [mainLoop]

/-- If the first batch with a quit event, counting from iteration `i`, is
`n` iterations ahead, then the loop runs `n + 1` iterations and exits. -/
theorem mainLoop_quit (inp : Inputs) (n : Nat) :
    ∀ (i fuel : Nat), (∀ j, j < n → hasQuit (inp.events (i + j)) = false) →
      hasQuit (inp.events (i + n)) = true → n + 2 ≤ fuel →
      mainLoop inp fuel i true = some ((List.range' i (n + 1)).flatMap (iteration inp)) := by
  induction n with
  | zero =>
    intro i fuel _ hq hf
    obtain ⟨f, rfl⟩ : ∃ f, fuel = f + 2 := ⟨fuel - 2, by omega⟩
    have hq0 : hasQuit (inp.events i) = true := by simpa using hq
    simp [mainLoop_succ_true, hq0, mainLoop_succ_false, List.range'_succ]
  | succ n ih =>
    intro i fuel hno hq hf
    obtain ⟨f, rfl⟩ : ∃ f, fuel = f + 1 := ⟨fuel - 1, by omega⟩
    have h0 : hasQuit (inp.events i) = false := by simpa using hno 0 (by omega)
    have hrec := ih (i + 1) f
      (fun j hj => by have := hno (j + 1) (by omega); rwa [show i + 1 + j = i + (j + 1) by omega])
      (by rwa [show i + 1 + n = i + (n + 1) by omega]) (by omega)
    rw [mainLoop_succ_true, h0]
    simp only [Bool.not_false, hrec, Option.map_some']
    rw [List.range'_succ i (n + 1), List.flatMap_cons]

/-- Every terminating execution of the loop has that shape. -/
theorem mainLoop_some (inp : Inputs) (fuel : Nat) :
    ∀ (i : Nat) (t : Trace), mainLoop inp fuel i true = some t →
      ∃ n, (∀ j, j < n → hasQuit (inp.events (i + j)) = false) ∧
        hasQuit (inp.events (i + n)) = true ∧
        t = (List.range' i (n + 1)).flatMap (iteration inp) := by
  induction fuel with
  | zero => intro i t h; simp [mainLoop] at h
  | succ f ih =>
    intro i t h
    rw [mainLoop_succ_true] at h
    cases hq : hasQuit (inp.events i) with
    | true =>
      rw [hq] at h
      cases f with
      | zero => simp [mainLoop] at h
      | succ f =>
        refine ⟨0, by simp, by simpa using hq, ?_⟩
        simp [mainLoop_succ_false] at h
        simp [List.range'_succ, ← h]
    | false =>
      rw [hq] at h
      simp only [Bool.not_false, Option.map_eq_some'] at h
      obtain ⟨rest, hrest, rfl⟩ := h
      obtain ⟨n, hno, hqn, rfl⟩ := ih (i + 1) rest hrest
      refine ⟨n + 1, ?_, ?_, ?_⟩
      · intro j hj
        cases j with
        | zero => simpa using hq
        | succ j =>
          have := hno j (by omega)
          rwa [show i + (j + 1) = i + 1 + j by omega]
      · rwa [show i + (n + 1) = i + 1 + n by omega]
      · rw [List.range'_succ i (n + 1), List.flatMap_cons]

/-- When all five initialisation calls succeed, `main` is the loop between
the initialisation calls and the shutdown calls. -/
theorem main_allOk (inp : Inputs) (fuel : Nat) (h : inp.init.allOk = true) :
    main inp fuel =
      (mainLoop inp fuel 0 true).map (fun frames => (0, initOk ++ frames ++ shutdown)) := by
  obtain ⟨⟨a, b, c, d, e⟩, ev, ra, tx⟩ := inp
  simp only [InitOutcomes.allOk, Bool.and_eq_true] at h
  obtain ⟨⟨⟨⟨rfl, rfl⟩, rfl⟩, rfl⟩, rfl⟩ := h
  simp only [main, Bool.not_true, Bool.false_eq_true, if_false]
  cases mainLoop _ fuel 0 true <;> simp [initOk, shutdown]

/-! ## Lemmas on the trace of a run that reaches the main loop -/

theorem renderHUD_body (r : Option SDL_Surface) (x : Bool) :
    ∀ a ∈ renderHUD r x, isBodyAction a = true := by
  cases r <;> cases x <;> simp [renderHUD, isBodyAction, isLoopAction]

theorem iteration_body (inp : Inputs) (i : Nat) :
    ∀ a ∈ iteration inp i, isBodyAction a = true := by
  intro a ha
  simp only [iteration, drain, frame, List.mem_append, List.mem_map, List.mem_cons,
    List.mem_singleton, List.not_mem_nil, or_false] at ha
  rcases ha with (⟨e, _, rfl⟩ | rfl) | ((rfl | rfl) | ha) | rfl
  any_goals rfl
  exact renderHUD_body _ _ a ha

theorem loop_body (inp : Inputs) (l : List Nat) :
    ∀ a ∈ l.flatMap (iteration inp), isBodyAction a = true := by
  intro a ha
  obtain ⟨i, _, hi⟩ := List.mem_flatMap.mp ha
  exact iteration_body inp i a hi

theorem body_releases (a : Action) (r : Resource) (h : isBodyAction a = true)
    (hr : releases a = some r) : r.longLived = false := by
  cases a <;> simp [isBodyAction, isLoopAction, releases] at h hr <;> subst hr <;> rfl

theorem body_acquires (a : Action) (r : Resource) (h : isBodyAction a = true)
    (hr : acquires a = some r) : r.longLived = false := by
  cases a with
  | TTF_RenderText_Solid _ _ res =>
    cases res <;> simp [acquires] at hr
    subst hr; rfl
  | SDL_CreateTextureFromSurface ok =>
    cases ok <;> simp [acquires] at hr
    subst hr; rfl
  | _ =>
    first
      | (simp [isBodyAction, isLoopAction] at h; done)
      | simp [acquires] at hr

theorem liveAfter_append (live : List Resource) (s t : Trace) :
    liveAfter live (s ++ t) = liveAfter (liveAfter live s) t := by
  induction s generalizing live with
  | nil => rfl
  | cons a s ih =>
    simp only [List.cons_append, liveAfter]
    split <;> exact ih _

theorem liveAfter_renderHUD (live : List Resource) (r : Option SDL_Surface) (x : Bool) :
    liveAfter live (renderHUD r x) = live := by
  cases r <;> cases x <;> simp [renderHUD, liveAfter, acquires, releases]

theorem liveAfter_drain (live : List Resource) (batch : List SDL_Event) :
    liveAfter live (drain batch) = live := by
  simp only [drain]
  induction batch with
  | nil => simp [liveAfter, acquires, releases]
  | cons e rest ih => simpa [liveAfter, acquires, releases] using ih

theorem liveAfter_iteration (live : List Resource) (inp : Inputs) (i : Nat) :
    liveAfter live (iteration inp i) = live := by
  simp only [iteration, frame, liveAfter_append, liveAfter_drain, liveAfter_renderHUD]
  simp [liveAfter, acquires, releases]

theorem liveAfter_loop (live : List Resource) (inp : Inputs) (l : List Nat) :
    liveAfter live (l.flatMap (iteration inp)) = live := by
  induction l with
  | nil => rfl
  | cons i l ih => rw [List.flatMap_cons, liveAfter_append, liveAfter_iteration, ih]

/-- Counting, over several iterations, actions that occur once per iteration. -/
theorem countP_loop (p : Action → Bool) (f : Nat → Trace) (h : ∀ i, (f i).countP p = 1)
    (l : List Nat) : (l.flatMap f).countP p = l.length := by
  induction l with
  | nil => rfl
  | cons i l ih => rw [List.flatMap_cons, List.countP_append, h, ih, List.length_cons]; omega

/-- With all initialisation steps successful and the first quit event in batch
`n`, `main` terminates for every fuel above `n`, with status 0, after exactly
the iterations `0 .. n-1`. -/
theorem main_quit (inp : Inputs) (fuel n : Nat) (hall : inp.init.allOk = true)
    (hq : FirstQuitAt inp n) (hfuel : n + 1 ≤ fuel) :
    main inp fuel =
      some (0, initOk ++ (List.range n).flatMap (iteration inp) ++ shutdown) := by
  obtain ⟨hn, hno, hqn⟩ := hq
  obtain ⟨m, rfl⟩ : ∃ m, n = m + 1 := ⟨n - 1, by omega⟩
  have hloop := mainLoop_quit inp m 0 fuel
    (fun j hj => by simpa using hno j (by omega)) (by simpa using hqn) (by omega)
  rw [main_allOk inp fuel hall, hloop, List.range_eq_range']
  rfl

/-- Every terminating run with all initialisation steps successful has that
shape, for the batch `n` that holds the first quit event. -/
theorem main_some (inp : Inputs) (fuel : Nat) (s : Int) (t : Trace)
    (hall : inp.init.allOk = true) (h : main inp fuel = some (s, t)) :
    s = 0 ∧ ∃ n, FirstQuitAt inp n ∧
      t = initOk ++ (List.range n).flatMap (iteration inp) ++ shutdown := by
  rw [main_allOk inp fuel hall] at h
  simp only [Option.map_eq_some', Prod.mk.injEq] at h
  obtain ⟨frames, hframes, hs, rfl⟩ := h
  obtain ⟨m, hno, hqn, rfl⟩ := mainLoop_some inp fuel 0 frames hframes
  refine ⟨hs.symm, m + 1, ⟨by omega, fun j hj => by simpa using hno j (by omega),
    by simpa using hqn⟩, by rw [List.range_eq_range']⟩



theorem iteration_eq (inp : Inputs) :
    iteration inp = fun i =>
      drain (inp.events i)
        ++ [.SDL_SetRenderDrawColor 0 0 0 255, .SDL_RenderClear]
        ++ renderHUD (inp.rasterize i) (inp.createTexture i)
        ++ [.SDL_RenderPresent] := by
  funext i; simp [iteration, frame]

/-- An action that is not a polling call, occurs once in every frame and not
at all in the initialisation or the shutdown, occurs `n` times in a run of
`n` iterations. -/
theorem countP_run (p : Action → Bool) (inp : Inputs) (n : Nat)
    (hinit : initOk.countP p = 0) (hshut : shutdown.countP p = 0)
    (hpoll : ∀ e, p (.SDL_PollEvent e) = false)
    (hframe : ∀ r x, (frame r x).countP p = 1) :
    (initOk ++ (List.range n).flatMap (iteration inp) ++ shutdown).countP p = n := by
  have hdrain : ∀ b : List SDL_Event, (drain b).countP p = 0 := by
    intro b
    rw [List.countP_eq_zero]
    intro a ha
    simp only [drain, List.mem_append, List.mem_map, List.mem_singleton] at ha
    rcases ha with ⟨e, _, rfl⟩ | rfl <;> simp [hpoll]
  have hit : ∀ i, (iteration inp i).countP p = 1 := by
    intro i
    simp only [iteration, List.countP_append, hdrain, hframe]
  simp only [List.countP_append, hinit, hshut, countP_loop p (iteration inp) hit,
    List.length_range]
  omega

/-! ## Initialisation failures -/

/-- The trace of `main` when step `k` is the first initialisation step to
fail, read off the source. -/
theorem main_first_failure (inp : Inputs) (fuel : Nat) (k : InitStep)
    (hk : inp.init.outcome k = false)
    (hbefore : ∀ j : InitStep, j.index < k.index → inp.init.outcome j = true) :
    main inp fuel = some (1, failureTrace k) := by
  obtain ⟨⟨a, b, c, d, e⟩, ev, ra, tx⟩ := inp
  have h1 := hbefore .SDL_Init
  have h2 := hbefore .TTF_Init
  have h3 := hbefore .SDL_CreateWindow
  have h4 := hbefore .SDL_CreateRenderer
  cases k <;>
    simp only [InitOutcomes.outcome, InitStep.index] at hk h1 h2 h3 h4 <;>
    simp_all [main, failureTrace]

theorem first_failure_no_loop (k : InitStep) (t : Trace) (ht : t = failureTrace k) :
    ∀ a ∈ t, isLoopAction a = false := by
  subst ht
  cases k <;> simp [failureTrace, isLoopAction]

/-- Some initialisation step fails exactly when there is a first one. -/
theorem exists_first_failure (o : InitOutcomes) (h : o.allOk = false) :
    ∃ k : InitStep, o.outcome k = false ∧
      ∀ j : InitStep, j.index < k.index → o.outcome j = true := by
  obtain ⟨a, b, c, d, e⟩ := o
  cases a
  · exact ⟨.SDL_Init, rfl, by intro j hj; cases j <;> simp [InitStep.index] at hj⟩
  cases b
  · exact ⟨.TTF_Init, rfl, by intro j hj; cases j <;> first | rfl | simp [InitStep.index] at hj⟩
  cases c
  · exact ⟨.SDL_CreateWindow, rfl,
      by intro j hj; cases j <;> first | rfl | simp [InitStep.index] at hj⟩
  cases d
  · exact ⟨.SDL_CreateRenderer, rfl,
      by intro j hj; cases j <;> first | rfl | simp [InitStep.index] at hj⟩
  cases e
  · exact ⟨.TTF_OpenFont, rfl,
      by intro j hj; cases j <;> first | rfl | simp [InitStep.index] at hj⟩
  simp [InitOutcomes.allOk] at h

/-- The status of `main` is 0 only on the path through the main loop. -/
theorem main_status_zero (inp : Inputs) (fuel : Nat) (t : Trace)
    (h : main inp fuel = some (0, t)) : inp.init.allOk = true := by
  cases hall : inp.init.allOk with
  | true => rfl
  | false =>
    obtain ⟨k, hk, hb⟩ := exists_first_failure inp.init hall
    rw [main_first_failure inp fuel k hk hb] at h
    simp at h

/-- C1: if any of the five initialisation steps fails, `main` returns exit
status 1 (whatever the fuel), having attempted exactly the steps up to and
including the first failing one and no later step, and having performed no
action of the main loop; and `main` returns 0 only if all five steps
succeeded. -/
theorem C1_init_failure_exits_1 (inp : Inputs) (fuel : Nat) :
    (inp.init.allOk = false →
      ∃ (k : InitStep) (t : Trace),
        inp.init.outcome k = false ∧
        (∀ j : InitStep, j.index < k.index → inp.init.outcome j = true) ∧
        main inp fuel = some (1, t) ∧
        initAttempts t = InitStep.all.take k.index ∧
        (∀ a ∈ t, isLoopAction a = false)) ∧
    (∀ t, main inp fuel = some (0, t) → inp.init.allOk = true) := by
  refine ⟨fun hall => ?_, fun t ht => main_status_zero inp fuel t ht⟩
  obtain ⟨k, hk, hb⟩ := exists_first_failure inp.init hall
  refine ⟨k, _, hk, hb, main_first_failure inp fuel k hk hb, ?_, ?_⟩
  · cases k <;> simp [failureTrace, initAttempts, initAttempt, InitStep.all, InitStep.index]
  · exact first_failure_no_loop k _ rfl

/-- C1 at a concrete input: window creation fails. -/
theorem C1_init_failure_exits_1_witness :
    ∃ (k : InitStep) (t : Trace),
      (sampleInputs ⟨true, true, false, true, true⟩).init.outcome k = false ∧
      (∀ j : InitStep, j.index < k.index →
        (sampleInputs ⟨true, true, false, true, true⟩).init.outcome j = true) ∧
      main (sampleInputs ⟨true, true, false, true, true⟩) 0 = some (1, t) ∧
      initAttempts t = InitStep.all.take k.index ∧
      (∀ a ∈ t, isLoopAction a = false) :=
  (C1_init_failure_exits_1 (sampleInputs ⟨true, true, false, true, true⟩) 0).1 rfl

/-- C2: when step `k` is the first initialisation step to fail, `main`
terminates with status 1; the resources it acquired are exactly those of the
steps before `k`; the resources it releases are those same resources (a
permutation of them), none released twice; and replaying the trace leaves no
resource live. -/
theorem C2_failure_unwinds_acquired (inp : Inputs) (fuel : Nat) (k : InitStep)
    (hk : inp.init.outcome k = false)
    (hbefore : ∀ j : InitStep, j.index < k.index → inp.init.outcome j = true) :
    ∃ t : Trace, main inp fuel = some (1, t) ∧
      acquired t = (InitStep.all.take (k.index - 1)).map InitStep.resource ∧
      (released t).Perm (acquired t) ∧
      (released t).Nodup ∧
      liveAfter [] t = [] := by
  refine ⟨_, main_first_failure inp fuel k hk hbefore, ?_, ?_, ?_, ?_⟩
  · cases k <;>
      simp [failureTrace, acquired, acquires, InitStep.all, InitStep.index, InitStep.resource]
  · cases k <;> simp [failureTrace, acquired, acquires, released, releases] <;> decide
  · cases k <;> simp [failureTrace, released, releases]
  · cases k <;> simp [failureTrace, liveAfter, acquires, releases]

/-- C2 at a concrete input: renderer creation is the first step to fail. -/
theorem C2_failure_unwinds_acquired_witness :
    ∃ t : Trace, main (sampleInputs ⟨true, true, true, false, false⟩) 0 = some (1, t) ∧
      acquired t =
        (InitStep.all.take (InitStep.SDL_CreateRenderer.index - 1)).map InitStep.resource ∧
      (released t).Perm (acquired t) ∧
      (released t).Nodup ∧
      liveAfter [] t = [] :=
  C2_failure_unwinds_acquired (sampleInputs ⟨true, true, true, false, false⟩) 0
    .SDL_CreateRenderer rfl
    (by intro j hj; cases j <;> first | rfl | simp [InitStep.index] at hj)

/-- C3 as stated fails: when `SDL_Init` is the first step to fail and when
`TTF_Init` is the first step to fail, `main` returns the same exit status. -/
theorem C3_counterexample :
    InitStep.SDL_Init ≠ InitStep.TTF_Init ∧
    (sampleInputs ⟨false, true, true, true, true⟩).init.outcome .SDL_Init = false ∧
    (sampleInputs ⟨true, false, true, true, true⟩).init.outcome .SDL_Init = true ∧
    (sampleInputs ⟨true, false, true, true, true⟩).init.outcome .TTF_Init = false ∧
    (main (sampleInputs ⟨false, true, true, true, true⟩) 0).map Prod.fst = some 1 ∧
    (main (sampleInputs ⟨true, false, true, true, true⟩) 0).map Prod.fst = some 1 := by
  refine ⟨by decide, rfl, rfl, rfl, rfl, rfl⟩

/-- C3, amended: whichever initialisation step fails, `main` terminates with
the one exit status 1; a run in which all steps succeed can only terminate
with status 0, so status 1 tells a failed initialisation from a normal
shutdown but not one failed step from another. -/
theorem C3_failure_status_is_1 (inp : Inputs) (fuel : Nat) :
    (inp.init.allOk = false → (main inp fuel).map Prod.fst = some 1) ∧
    (inp.init.allOk = true →
      ∀ (s : Int) (t : Trace), main inp fuel = some (s, t) → s = 0) := by
  constructor
  · intro hall
    obtain ⟨k, hk, hb⟩ := exists_first_failure inp.init hall
    rw [main_first_failure inp fuel k hk hb]
    rfl
  · intro hall s t h
    rw [main_allOk inp fuel hall] at h
    simp only [Option.map_eq_some', Prod.mk.injEq] at h
    obtain ⟨_, _, hs, _⟩ := h
    exact hs.symm

/-- C3 (amended) at a concrete input: opening the font fails. -/
theorem C3_failure_status_is_1_witness :
    (main (sampleInputs ⟨true, true, true, true, false⟩) 7).map Prod.fst = some 1 :=
  (C3_failure_status_is_1 (sampleInputs ⟨true, true, true, true, false⟩) 7).1 rfl

/-! ## The HUD renderer -/

/-- C5: for every outcome of the rasterise call and of the texture-creation
call, a call of `renderHUD` leaves the set of live resources as it found it;
the surfaces and textures it releases are those it created, none released
twice; no action after the texture is destroyed uses the texture, and no
action after the surface is freed reads the surface. -/
theorem C5_renderHUD_transient_resources (r : Option SDL_Surface) (x : Bool) :
    (∀ live : List Resource, liveAfter live (renderHUD r x) = live) ∧
    (released (renderHUD r x)).Perm (acquired (renderHUD r x)) ∧
    (released (renderHUD r x)).Nodup ∧
    (renderHUD r x).Pairwise
      (fun a b => releases a = some .texture → usesTexture b = false) ∧
    (renderHUD r x).Pairwise
      (fun a b => releases a = some .surface → usesSurface b = false) := by
  refine ⟨fun live => liveAfter_renderHUD live r x, ?_, ?_, ?_, ?_⟩
  · cases r <;> cases x <;> simp [renderHUD, released, releases, acquired, acquires]
  · cases r <;> cases x <;> simp [renderHUD, released, releases]
  · cases r <;> cases x <;> simp [renderHUD, releases, usesTexture]
  · cases r <;> cases x <;> simp [renderHUD, releases, usesSurface]

/-- C9: if rasterisation fails, `renderHUD` makes no texture-creation call,
no blit and no release; if texture creation fails, its only release is the
one `SDL_FreeSurface` and it makes no blit; whatever the outcomes, it never
releases the renderer or the font; and with all initialisation steps
successful and the first quit event in batch `n`, `main` terminates with
status 0 after `n` iterations, each ending in a present call after its
`renderHUD`, for every choice of rasterise and texture-creation outcomes. -/
theorem C9_renderHUD_failure_contained (inp : Inputs) (fuel n : Nat)
    (surface : SDL_Surface) (x : Bool)
    (hall : inp.init.allOk = true) (hq : FirstQuitAt inp n) (hfuel : n + 1 ≤ fuel) :
    (∀ a ∈ renderHUD none x,
      isCreateTexture a = false ∧ usesTexture a = false ∧ releases a = none) ∧
    (released (renderHUD (some surface) false) = [.surface] ∧
      ∀ a ∈ renderHUD (some surface) false, usesTexture a = false) ∧
    (∀ (r : Option SDL_Surface) (y : Bool), ∀ a ∈ renderHUD r y,
      releases a ≠ some .renderer ∧ releases a ≠ some .font) ∧
    ∃ t : Trace, main inp fuel = some (0, t) ∧
      t = initOk
          ++ (List.range n).flatMap (fun i =>
                drain (inp.events i)
                  ++ [.SDL_SetRenderDrawColor 0 0 0 255, .SDL_RenderClear]
                  ++ renderHUD (inp.rasterize i) (inp.createTexture i)
                  ++ [.SDL_RenderPresent])
          ++ shutdown ∧
      t.countP isPresent = n := by
  refine ⟨?_, ⟨?_, ?_⟩, ?_, ?_⟩
  · simp [renderHUD, isCreateTexture, usesTexture, releases]
  · simp [renderHUD, released, releases]
  · simp [renderHUD, usesTexture]
  · intro r y
    cases r <;> cases y <;> simp [renderHUD, releases]
  · refine ⟨_, main_quit inp fuel n hall hq hfuel, by rw [iteration_eq], ?_⟩
    exact countP_run isPresent inp n rfl rfl (fun _ => rfl)
      (fun r x => by cases r <;> cases x <;> simp [frame, renderHUD, isPresent])

/-- The quit event of `okInputs` is first seen in batch 3. -/
theorem okInputs_firstQuit : FirstQuitAt okInputs 3 := by
  refine ⟨by decide, ?_, by decide⟩
  intro j hj
  have : j = 0 ∨ j = 1 := by omega
  rcases this with rfl | rfl <;> decide

/-- C9 at a concrete input: rasterisation fails in frame 1, texture creation
fails in frame 2, and the run still presents three frames and returns 0. -/
theorem C9_renderHUD_failure_contained_witness :
    okInputs.rasterize 0 = none ∧ okInputs.createTexture 1 = false ∧
    ∃ t : Trace, main okInputs 4 = some (0, t) ∧
      t = initOk
          ++ (List.range 3).flatMap (fun i =>
                drain (okInputs.events i)
                  ++ [.SDL_SetRenderDrawColor 0 0 0 255, .SDL_RenderClear]
                  ++ renderHUD (okInputs.rasterize i) (okInputs.createTexture i)
                  ++ [.SDL_RenderPresent])
          ++ shutdown ∧
      t.countP isPresent = 3 :=
  ⟨rfl, rfl, (C9_renderHUD_failure_contained okInputs 4 3 ⟨132, 28⟩ true rfl
    okInputs_firstQuit (by decide)).2.2.2⟩

/-! ## Shutdown and the quit event -/

/-- In a run that reaches the main loop, an action that releases a long-lived
resource occurs only in the shutdown. -/
theorem longLived_release_in_shutdown (inp : Inputs) (l : List Nat) :
    ∀ a ∈ initOk ++ l.flatMap (iteration inp),
      ∀ r, releases a = some r → r.longLived = false := by
  intro a ha r hr
  rcases List.mem_append.mp ha with ha | ha
  · revert hr
    simp only [initOk, List.mem_cons, List.mem_singleton, List.not_mem_nil, or_false] at ha
    rcases ha with rfl | rfl | rfl | rfl | rfl <;> simp [releases]
  · exact body_releases a r (loop_body inp l a ha) hr

/-- A relation that holds whenever its first argument releases no long-lived
resource, and holds pairwise on the shutdown, holds pairwise on the trace of
a run that reaches the main loop. -/
theorem pairwise_run (R : Action → Action → Prop) (inp : Inputs) (l : List Nat)
    (hfree : ∀ a, (∀ r, releases a = some r → r.longLived = false) → ∀ b, R a b)
    (hshut : shutdown.Pairwise R) :
    (initOk ++ l.flatMap (iteration inp) ++ shutdown).Pairwise R := by
  have hX := longLived_release_in_shutdown inp l
  rw [List.pairwise_append]
  refine ⟨?_, hshut, fun a ha b _ => hfree a (hX a ha) b⟩
  exact List.pairwise_of_forall_mem_list (fun a ha b _ => hfree a (hX a ha) b)

theorem released_run (inp : Inputs) (l : List Nat) :
    (released (initOk ++ l.flatMap (iteration inp) ++ shutdown)).filter Resource.longLived =
      [.font, .renderer, .window, .ttf, .sdl] := by
  have hloop : (released (l.flatMap (iteration inp))).filter Resource.longLived = [] := by
    rw [List.filter_eq_nil_iff]
    intro r hr
    obtain ⟨a, ha, har⟩ := List.mem_filterMap.mp hr
    simp [body_releases a r (loop_body inp l a ha) har]
  simp only [released, List.filterMap_append, List.filter_append] at hloop ⊢
  rw [hloop]
  simp [initOk, shutdown, releases, Resource.longLived]

theorem acquired_run (inp : Inputs) (l : List Nat) :
    (acquired (initOk ++ l.flatMap (iteration inp) ++ shutdown)).filter Resource.longLived =
      [.sdl, .ttf, .window, .renderer, .font] := by
  have hloop : (acquired (l.flatMap (iteration inp))).filter Resource.longLived = [] := by
    rw [List.filter_eq_nil_iff]
    intro r hr
    obtain ⟨a, ha, har⟩ := List.mem_filterMap.mp hr
    simp [body_acquires a r (loop_body inp l a ha) har]
  simp only [acquired, List.filterMap_append, List.filter_append] at hloop ⊢
  rw [hloop]
  simp [initOk, shutdown, acquires, Resource.longLived]

theorem count_filter_longLived (l : List Resource) (r : Resource) (h : r.longLived = true) :
    l.count r = (l.filter Resource.longLived).count r := by
  induction l with
  | nil => rfl
  | cons a l ih =>
    by_cases ha : a.longLived = true
    · simp [List.filter_cons, ha, List.count_cons, ih]
    · have hne : a ≠ r := fun e => ha (e ▸ h)
      simp [List.filter_cons, ha, List.count_cons, ih, hne]

/-- C4: on every terminating run of `main` in which all initialisation steps
succeed, the exit status is 0; the font, the renderer and the window are each
released exactly once; no action of the main loop (poll, clear, any action of
`renderHUD`, present) occurs after a release of a long-lived resource; and
replaying the trace leaves no resource live. -/
theorem C4_shutdown_releases_once (inp : Inputs) (fuel : Nat) (s : Int) (t : Trace)
    (hall : inp.init.allOk = true) (hrun : main inp fuel = some (s, t)) :
    s = 0 ∧
    (released t).count .font = 1 ∧
    (released t).count .renderer = 1 ∧
    (released t).count .window = 1 ∧
    t.Pairwise (fun a b =>
      ∀ r, releases a = some r → r.longLived = true → isLoopAction b = false) ∧
    liveAfter [] t = [] := by
  obtain ⟨hs, n, _, rfl⟩ := main_some inp fuel s t hall hrun
  refine ⟨hs, ?_, ?_, ?_, ?_, ?_⟩
  · rw [count_filter_longLived _ .font rfl, released_run]; rfl
  · rw [count_filter_longLived _ .renderer rfl, released_run]; rfl
  · rw [count_filter_longLived _ .window rfl, released_run]; rfl
  · refine pairwise_run _ inp _ ?_ ?_
    · intro a ha b r hr hlong
      rw [ha r hr] at hlong
      exact absurd hlong (by decide)
    · simp [shutdown, isLoopAction]
  · rw [liveAfter_append, liveAfter_append, liveAfter_loop]
    simp [initOk, shutdown, liveAfter, acquires, releases]

/-- C4 at a concrete input: a run of three frames. -/
theorem C4_shutdown_releases_once_witness :
    ∃ t : Trace, main okInputs 4 = some (0, t) ∧
      (released t).count .font = 1 ∧
      (released t).count .renderer = 1 ∧
      (released t).count .window = 1 ∧
      t.Pairwise (fun a b =>
        ∀ r, releases a = some r → r.longLived = true → isLoopAction b = false) ∧
      liveAfter [] t = [] :=
  ⟨_, rfl, (C4_shutdown_releases_once okInputs 4 0 _ rfl rfl).2⟩

/-- C6: with all initialisation steps successful, if the first batch that
holds a quit event is batch `n` (counting from 1), then for every fuel above
`n` `main` returns status 0 and its trace is the initialisation, then exactly
the `n` iterations `0 .. n-1`, each a complete drain of its batch followed by
set-colour, clear, `renderHUD` and present (the iteration that saw the quit
event included), then the shutdown; draining a batch without a quit event
leaves `running` unchanged, a batch with one sets it to false, and in both
cases every event of the batch is polled, followed by the call that finds the
queue empty. -/
theorem C6_quit_after_n_frames (inp : Inputs) (fuel n : Nat)
    (hall : inp.init.allOk = true) (hn : 0 < n)
    (hno : ∀ j, j + 1 < n → ∀ e ∈ inp.events j, e.type ≠ SDL_QUIT)
    (hquit : ∃ e ∈ inp.events (n - 1), e.type = SDL_QUIT)
    (hfuel : n + 1 ≤ fuel) :
    (∃ t : Trace, main inp fuel = some (0, t) ∧
      t = initOk
          ++ (List.range n).flatMap (fun i =>
                (inp.events i).map (fun e => Action.SDL_PollEvent (some e))
                  ++ [.SDL_PollEvent none]
                  ++ [.SDL_SetRenderDrawColor 0 0 0 255, .SDL_RenderClear]
                  ++ renderHUD (inp.rasterize i) (inp.createTexture i)
                  ++ [.SDL_RenderPresent])
          ++ shutdown ∧
      t.countP isClear = n ∧ t.countP isRasterize = n ∧ t.countP isPresent = n) ∧
    (∀ (batch : List SDL_Event) (running : Bool),
      (∀ e ∈ batch, e.type ≠ SDL_QUIT) → (pollEvents batch running).1 = running) ∧
    (∀ (batch : List SDL_Event) (running : Bool),
      (∃ e ∈ batch, e.type = SDL_QUIT) → (pollEvents batch running).1 = false) ∧
    (∀ (batch : List SDL_Event) (running : Bool),
      (pollEvents batch running).2 =
        batch.map (fun e => Action.SDL_PollEvent (some e)) ++ [.SDL_PollEvent none]) := by
  have hq : FirstQuitAt inp n := by
    refine ⟨hn, fun j hj => ?_, ?_⟩
    · simpa [hasQuit] using hno j hj
    · simpa [hasQuit] using hquit
  refine ⟨⟨_, main_quit inp fuel n hall hq hfuel, ?_, ?_, ?_, ?_⟩, ?_, ?_, ?_⟩
  · rw [iteration_eq]; rfl
  · exact countP_run isClear inp n rfl rfl (fun _ => rfl)
      (fun r x => by cases r <;> cases x <;> simp [frame, renderHUD, isClear])
  · exact countP_run isRasterize inp n rfl rfl (fun _ => rfl)
      (fun r x => by cases r <;> cases x <;> simp [frame, renderHUD, isRasterize])
  · exact countP_run isPresent inp n rfl rfl (fun _ => rfl)
      (fun r x => by cases r <;> cases x <;> simp [frame, renderHUD, isPresent])
  · intro batch running h
    rw [pollEvents_fst]
    have : hasQuit batch = false := by simpa [hasQuit] using h
    simp [this]
  · intro batch running h
    rw [pollEvents_fst]
    have : hasQuit batch = true := by simpa [hasQuit] using h
    simp [this]
  · intro batch running
    rw [pollEvents_snd, drain]

/-- C6 at a concrete input: the quit event is in the third batch, followed in
that batch by a key event; the run has exactly three frames. -/
theorem C6_quit_after_n_frames_witness :
    ∃ t : Trace, main okInputs 4 = some (0, t) ∧
      t = initOk
          ++ (List.range 3).flatMap (fun i =>
                (okInputs.events i).map (fun e => Action.SDL_PollEvent (some e))
                  ++ [.SDL_PollEvent none]
                  ++ [.SDL_SetRenderDrawColor 0 0 0 255, .SDL_RenderClear]
                  ++ renderHUD (okInputs.rasterize i) (okInputs.createTexture i)
                  ++ [.SDL_RenderPresent])
          ++ shutdown ∧
      t.countP isClear = 3 ∧ t.countP isRasterize = 3 ∧ t.countP isPresent = 3 :=
  (C6_quit_after_n_frames okInputs 4 3 rfl (by decide)
    (fun j hj => by
      have : j = 0 ∨ j = 1 := by omega
      rcases this with rfl | rfl <;> decide)
    (by decide) (by decide)).1

/-- C10: on every terminating run of `main`, whichever exit path it takes,
the long-lived resources are released in the reverse of the order in which
they were acquired; no font is closed after `TTF_Quit`, no renderer is
destroyed after its window, nothing is released after `SDL_Quit`, and if
anything is released at all then `SDL_Quit` is the last action of the run. -/
theorem C10_release_reverse_order (inp : Inputs) (fuel : Nat) (s : Int) (t : Trace)
    (hrun : main inp fuel = some (s, t)) :
    (released t).filter Resource.longLived =
      ((acquired t).filter Resource.longLived).reverse ∧
    t.Pairwise (fun a b => releases a = some .ttf → releases b ≠ some .font) ∧
    t.Pairwise (fun a b => releases a = some .window → releases b ≠ some .renderer) ∧
    t.Pairwise (fun a b => releases a = some .sdl → releases b = none) ∧
    (released t = [] ∨ t.getLast? = some .SDL_Quit) := by
  cases hall : inp.init.allOk with
  | false =>
    obtain ⟨k, hk, hb⟩ := exists_first_failure inp.init hall
    rw [main_first_failure inp fuel k hk hb] at hrun
    simp only [Option.some.injEq, Prod.mk.injEq] at hrun
    obtain ⟨_, rfl⟩ := hrun
    cases k <;>
      simp [failureTrace, released, releases, acquired, acquires, Resource.longLived]
  | true =>
    obtain ⟨_, n, _, rfl⟩ := main_some inp fuel s t hall hrun
    refine ⟨by rw [released_run, acquired_run]; rfl, ?_, ?_, ?_, Or.inr ?_⟩
    · refine pairwise_run _ inp _ ?_ (by simp [shutdown, releases])
      intro a ha b h
      exact absurd (ha _ h) (by decide)
    · refine pairwise_run _ inp _ ?_ (by simp [shutdown, releases])
      intro a ha b h
      exact absurd (ha _ h) (by decide)
    · refine pairwise_run _ inp _ ?_ (by simp [shutdown, releases])
      intro a ha b h
      exact absurd (ha _ h) (by decide)
    · simp [shutdown]

/-- C10 at a concrete input: a run of three frames ending in the normal
shutdown. -/
theorem C10_release_reverse_order_witness :
    ∃ t : Trace, main okInputs 4 = some (0, t) ∧
      (released t).filter Resource.longLived =
        ((acquired t).filter Resource.longLived).reverse ∧
      t.Pairwise (fun a b => releases a = some .ttf → releases b ≠ some .font) ∧
      t.Pairwise (fun a b => releases a = some .window → releases b ≠ some .renderer) ∧
      t.Pairwise (fun a b => releases a = some .sdl → releases b = none) ∧
      (released t = [] ∨ t.getLast? = some .SDL_Quit) :=
  ⟨_, rfl, C10_release_reverse_order okInputs 4 0 _ rfl⟩

end Doom
